import Mathlib

/-!
Shallow embedding of the feedback-server application (FastAPI + MongoDB).
Documents of the three Mongo collections (`users`, `feedback`, `forms`) are
modelled as Lean structures; ObjectIds are modelled as their 24-hex-character
string form; `find_one` is `List.find?`; `update_one` updates the first
matching document; datetimes are `Nat` instants supplied by the caller.
A Mongo field that may be absent from a document is an outer `Option`; a
stored null is an inner `none` (so `form_id : Option (Option String)`).
-/

namespace FeedbackServer

inductive Role where
  | manager
  | employee
deriving DecidableEq, Repr

/-- A document of the `users` collection (src/models.py UserResponse plus the
stored password hash). `uid` is the string form of the Mongo `_id`. -/
structure User where
  uid : String
  email : String
  password : String
  full_name : String
  role : Role
  employee_id : String
  department : Option String := none
  manager_id : Option String := none
  created_at : Nat := 0
  is_active : Bool := true
deriving DecidableEq, Repr

/-- A document of the `feedback` collection. `form_id` is `none` when the
field is absent from the document, `some none` when it is stored as null and
`some (some s)` when it holds the string `s`. -/
structure FeedbackDoc where
  fid : String
  employee_id : String
  manager_id : String
  strengths : String
  areas_to_improve : String
  overall_sentiment : String
  additional_notes : Option String := none
  form_data : Option (List (String × String)) := none
  form_id : Option (Option String) := none
  created_at : Nat := 0
  updated_at : Option Nat := none
  is_acknowledged : Bool := false
  acknowledged_at : Option Nat := none
deriving DecidableEq, Repr

/-- A validated form field (src/models.py FormField). -/
structure FormField where
  id : Option String := none
  label : String
  ftype : String
  required : Bool := false
  options : Option (List String) := none
  placeholder : Option String := none
  name : Option String := none
deriving DecidableEq, Repr

/-- A document of the `forms` collection. -/
structure FormDoc where
  oid : String
  title : String
  description : Option String := none
  fields : List FormField := []
  is_active : Bool := true
  manager_id : String
  created_at : Nat := 0
  updated_at : Option Nat := none
deriving DecidableEq, Repr

/-- The shared document store: the three Mongo collections. -/
structure Store where
  users : List User := []
  feedback : List FeedbackDoc := []
  forms : List FormDoc := []
deriving DecidableEq, Repr

/-- HTTP-level failures raised by the handlers; `validation` stands for a
pydantic response-model validation failure (an unhandled 500). -/
inductive ApiError where
  | badRequest (msg : String)
  | unauthorized (msg : String)
  | forbidden (msg : String)
  | notFound (msg : String)
  | validation (msg : String)
deriving DecidableEq, Repr

/-- The HTTP status code of an error. -/
def errStatus : ApiError → Nat
  | .badRequest _ => 400
  | .unauthorized _ => 401
  | .forbidden _ => 403
  | .notFound _ => 404
  | .validation _ => 500

/-- The status code of a handler outcome: `none` on success. -/
def resultStatus {α : Type} : Except ApiError α → Option Nat
  | .ok _ => none
  | .error e => some (errStatus e)

/-- Python `str.lower()` restricted to the characters that occur here. -/
def lowerStr (s : String) : String :=
  String.mk (s.toList.map Char.toLower)

/-- bson `ObjectId.is_valid` on strings: exactly 24 hex characters. -/
def objectIdValid (s : String) : Bool :=
  s.toList.length = 24 && s.toList.all (fun c =>
    c.isDigit || ("abcdefABCDEF".toList.contains c))

/-- src/routers/feedback.py `normalize_sentiment` (the identical copy lives in
src/routers/dashboard.py): case-fold, map pos/positive and neg/negative,
everything else (including the empty string) to neutral. -/
def normalize_sentiment (sentiment : String) : String :=
  if sentiment = "" then "neutral"
  else if lowerStr sentiment = "positive" ∨ lowerStr sentiment = "pos" then "positive"
  else if lowerStr sentiment = "negative" ∨ lowerStr sentiment = "neg" then "negative"
  else "neutral"

/-- src/routers/feedback.py `normalize_feedback_data`: rewrite the
`overall_sentiment` entry of a feedback document (the key is always present
on documents produced by this application). -/
def normalizeDoc (d : FeedbackDoc) : FeedbackDoc :=
  { d with overall_sentiment := normalize_sentiment d.overall_sentiment }

/-- Pydantic validation of a string against the `SentimentType` enum. -/
def parseSentimentOk (s : String) : Bool :=
  s = "positive" || s = "neutral" || s = "negative"

/-- The serialized `FeedbackResponse` model (src/models.py). The response
`form_id` is `Optional[str]`: an absent field or a stored null both serialize
as `none`. -/
structure FeedbackResponse where
  fid : String
  employee_id : String
  manager_id : String
  strengths : String
  areas_to_improve : String
  overall_sentiment : String
  additional_notes : Option String
  form_data : Option (List (String × String))
  form_id : Option String
  created_at : Nat
  updated_at : Option Nat
  is_acknowledged : Bool
  acknowledged_at : Option Nat
deriving DecidableEq, Repr

/-- Field-wise serialization of a feedback document into the response model. -/
def responseOf (d : FeedbackDoc) : FeedbackResponse :=
  { fid := d.fid
    employee_id := d.employee_id
    manager_id := d.manager_id
    strengths := d.strengths
    areas_to_improve := d.areas_to_improve
    overall_sentiment := d.overall_sentiment
    additional_notes := d.additional_notes
    form_data := d.form_data
    form_id := d.form_id.join
    created_at := d.created_at
    updated_at := d.updated_at
    is_acknowledged := d.is_acknowledged
    acknowledged_at := d.acknowledged_at }

/-- `FeedbackResponse(**doc)`: pydantic validates `overall_sentiment` against
the `SentimentType` enum and fails on any other stored value. -/
def mkFeedbackResponse (d : FeedbackDoc) : Except ApiError FeedbackResponse :=
  if parseSentimentOk d.overall_sentiment then .ok (responseOf d)
  else .error (.validation "overall_sentiment")

/-- A Python list comprehension building response models: the first
validation failure aborts the whole response. -/
def buildResponses : List FeedbackDoc → Except ApiError (List FeedbackResponse)
  | [] => .ok []
  | d :: ds =>
    match mkFeedbackResponse d, buildResponses ds with
    | .ok r, .ok rs => .ok (r :: rs)
    | .error e, _ => .error e
    | .ok _, .error e => .error e

/-- Insert into a list kept sorted by `created_at` descending. -/
def insertDesc (f : FeedbackDoc) : List FeedbackDoc → List FeedbackDoc
  | [] => [f]
  | g :: gs => if f.created_at ≤ g.created_at then g :: insertDesc f gs else f :: g :: gs

/-- Mongo `.sort("created_at", -1)` on a feedback cursor. -/
def sortByCreatedDesc (l : List FeedbackDoc) : List FeedbackDoc :=
  l.foldr insertDesc []

/-- Mongo `update_one`: apply `g` to the first document matching `p`. -/
def updateFirst (p : FeedbackDoc → Bool) (g : FeedbackDoc → FeedbackDoc) :
    List FeedbackDoc → List FeedbackDoc
  | [] => []
  | f :: fs => if p f then g f :: fs else f :: updateFirst p g fs

/-! ### Identity and session (src/auth_middleware.py, src/routers/auth.py) -/

/-- A decoded JWT: the `sub` claim (a user id string) and the `exp` instant. -/
structure AuthToken where
  sub : String
  exp : Nat
deriving DecidableEq, Repr

/-- The external password hasher, modelled as an injective tagging. -/
def hashPassword (plain : String) : String :=
  "bcrypt$" ++ plain

/-- src/auth_middleware.py `verify_password`. -/
def verify_password (plain hashed : String) : Bool :=
  hashed = hashPassword plain

/-- `jwt.decode` followed by the `sub` lookup: yields the subject only while
the token is unexpired. -/
def verifyTokenSub (t : AuthToken) (now : Nat) : Option String :=
  if now < t.exp then some t.sub else none

/-- src/auth_middleware.py `get_current_user`: decode the token, look the user
up by `_id` and return it. The stored `is_active` flag is never consulted. -/
def get_current_user (db : Store) (t : AuthToken) (now : Nat) : Except ApiError User :=
  match verifyTokenSub t now with
  | none => .error (.unauthorized "Could not validate credentials")
  | some user_id =>
    match db.users.find? (fun u => decide (u.uid = user_id)) with
    | none => .error (.unauthorized "Could not validate credentials")
    | some user => .ok user

/-- src/routers/auth.py `login_user`: find by email, check the password, then
reject deactivated accounts. -/
def login_user (db : Store) (email password : String) : Except ApiError User :=
  match db.users.find? (fun u => decide (u.email = email)) with
  | none => .error (.unauthorized "Incorrect email or password")
  | some user =>
    if ¬ verify_password password user.password then
      .error (.unauthorized "Incorrect email or password")
    else if ¬ user.is_active then
      .error (.unauthorized "Account is deactivated")
    else .ok user

/-! ### Feedback router (src/routers/feedback.py) -/

/-- The `FeedbackCreate` request body (pydantic has already validated
`overall_sentiment` against the enum at request-parse time). -/
structure FeedbackCreate where
  employee_id : String
  strengths : String
  areas_to_improve : String
  overall_sentiment : String
  additional_notes : Option String := none
  form_data : Option (List (String × String)) := none
  form_id : Option String := none
deriving DecidableEq, Repr

/-- The document `create_feedback` inserts: `feedback.dict()` plus the
stamped `manager_id`, `created_at` and `is_acknowledged`. The dict always
contains the `form_id` key, so the inserted document stores the field even
when its value is null. -/
def createdFeedbackDoc (current_user : User) (feedback : FeedbackCreate)
    (now : Nat) (newId : String) : FeedbackDoc :=
  { fid := newId
    employee_id := feedback.employee_id
    strengths := feedback.strengths
    areas_to_improve := feedback.areas_to_improve
    overall_sentiment := feedback.overall_sentiment
    manager_id := current_user.employee_id
    additional_notes := feedback.additional_notes
    form_data := feedback.form_data
    form_id := some feedback.form_id
    created_at := now
    updated_at := none
    is_acknowledged := false
    acknowledged_at := none }

/-- src/routers/feedback.py `create_feedback`: manager-only (via the
`get_current_manager` dependency); the target must be a team member, else 404
and the store is unchanged. -/
def create_feedback (db : Store) (current_user : User) (feedback : FeedbackCreate)
    (now : Nat) (newId : String) : Store × Except ApiError FeedbackResponse :=
  if current_user.role = Role.manager then
    match db.users.find? (fun u => decide (u.employee_id = feedback.employee_id ∧
        u.manager_id = some current_user.employee_id ∧ u.role = Role.employee)) with
    | none => (db, .error (.notFound "Employee not found or not in your team"))
    | some _ =>
      let doc := createdFeedbackDoc current_user feedback now newId
      ({ db with feedback := db.feedback ++ [doc] },
       mkFeedbackResponse (normalizeDoc doc))
  else (db, .error (.forbidden "Only managers can access this resource"))

/-- src/routers/feedback.py `get_feedback` (the list endpoint). A manager is
scoped to `manager_id == caller`, optionally narrowed to a confirmed team
member; an employee is scoped to `employee_id == caller`. Every returned row
passes through `normalize_feedback_data`. The `employee_id` query parameter is
only honoured when truthy, matching `if employee_id:`. -/
def get_feedback (db : Store) (current_user : User) (employee_id : Option String) :
    Except ApiError (List FeedbackResponse) :=
  if current_user.role = Role.manager then
    match (match employee_id with
           | some e => if e = "" then none else some e
           | none => none) with
    | some eid =>
      match db.users.find? (fun u => decide (u.employee_id = eid ∧
          u.manager_id = some current_user.employee_id)) with
      | none => .error (.notFound "Employee not found in your team")
      | some _ =>
        buildResponses ((sortByCreatedDesc (db.feedback.filter (fun f =>
          decide (f.manager_id = current_user.employee_id ∧
            f.employee_id = eid)))).map normalizeDoc)
    | none =>
      buildResponses ((sortByCreatedDesc (db.feedback.filter (fun f =>
        decide (f.manager_id = current_user.employee_id)))).map normalizeDoc)
  else
    buildResponses ((sortByCreatedDesc (db.feedback.filter (fun f =>
      decide (f.employee_id = current_user.employee_id)))).map normalizeDoc)

/-- src/routers/feedback.py `get_feedback_by_id`: malformed id → 400; absent
row → 404; then the ownership check per role → 403; only then is the row
returned, normalized. -/
def get_feedback_by_id (db : Store) (current_user : User) (feedback_id : String) :
    Except ApiError FeedbackResponse :=
  if ¬ objectIdValid feedback_id then .error (.badRequest "Invalid feedback ID")
  else
    match db.feedback.find? (fun f => decide (f.fid = feedback_id)) with
    | none => .error (.notFound "Feedback not found")
    | some feedback =>
      if current_user.role = Role.manager then
        if feedback.manager_id ≠ current_user.employee_id then
          .error (.forbidden "You can only view feedback you have given")
        else mkFeedbackResponse (normalizeDoc feedback)
      else
        if feedback.employee_id ≠ current_user.employee_id then
          .error (.forbidden "You can only view your own feedback")
        else mkFeedbackResponse (normalizeDoc feedback)

/-- The `FeedbackUpdate` request body: five optional fields. -/
structure FeedbackUpdate where
  strengths : Option String := none
  areas_to_improve : Option String := none
  overall_sentiment : Option String := none
  additional_notes : Option String := none
  form_data : Option (List (String × String)) := none
deriving DecidableEq, Repr

/-- The `$set` document of `update_feedback`: every non-null patch field plus
an unconditional `updated_at` stamp, applied to the stored document. -/
def applyFeedbackPatch (patch : FeedbackUpdate) (now : Nat) (f : FeedbackDoc) :
    FeedbackDoc :=
  { f with
    strengths := patch.strengths.getD f.strengths
    areas_to_improve := patch.areas_to_improve.getD f.areas_to_improve
    overall_sentiment := patch.overall_sentiment.getD f.overall_sentiment
    additional_notes := (patch.additional_notes.map some).getD f.additional_notes
    form_data := (patch.form_data.map some).getD f.form_data
    updated_at := some now }

/-- src/routers/feedback.py `update_feedback`: manager-only, id validity,
existence, ownership, then the partial patch; the updated document is re-read
and returned normalized. -/
def update_feedback (db : Store) (current_user : User) (feedback_id : String)
    (patch : FeedbackUpdate) (now : Nat) : Store × Except ApiError FeedbackResponse :=
  if current_user.role = Role.manager then
    if ¬ objectIdValid feedback_id then (db, .error (.badRequest "Invalid feedback ID"))
    else
      match db.feedback.find? (fun f => decide (f.fid = feedback_id)) with
      | none => (db, .error (.notFound "Feedback not found"))
      | some existing =>
        if existing.manager_id ≠ current_user.employee_id then
          (db, .error (.forbidden "You can only update feedback you have given"))
        else
          let patched := updateFirst (fun f => decide (f.fid = feedback_id))
            (applyFeedbackPatch patch now) db.feedback
          let db2 : Store := { db with feedback := patched }
          match db2.feedback.find? (fun f => decide (f.fid = feedback_id)) with
          | none => (db2, .error (.notFound "Feedback not found"))
          | some updated => (db2, mkFeedbackResponse (normalizeDoc updated))
  else (db, .error (.forbidden "Only managers can access this resource"))

/-- The `$set` document of `acknowledge_feedback`: set the flag and rewrite
the timestamp, with no guard on the prior value. -/
def ackSet (now : Nat) (f : FeedbackDoc) : FeedbackDoc :=
  { f with is_acknowledged := true, acknowledged_at := some now }

/-- src/routers/feedback.py `acknowledge_feedback`: employee-only, the owning
employee only; sets `is_acknowledged` and rewrites `acknowledged_at` with no
guard on the prior value. -/
def acknowledge_feedback (db : Store) (current_user : User) (feedback_id : String)
    (now : Nat) : Store × Except ApiError String :=
  if current_user.role ≠ Role.employee then
    (db, .error (.forbidden "Only employees can acknowledge feedback"))
  else if ¬ objectIdValid feedback_id then
    (db, .error (.badRequest "Invalid feedback ID"))
  else
    match db.feedback.find? (fun f => decide (f.fid = feedback_id)) with
    | none => (db, .error (.notFound "Feedback not found"))
    | some feedback =>
      if feedback.employee_id ≠ current_user.employee_id then
        (db, .error (.forbidden "You can only acknowledge your own feedback"))
      else
        let acked := updateFirst (fun f => decide (f.fid = feedback_id)) (ackSet now) db.feedback
        ({ db with feedback := acked }, .ok "Feedback acknowledged successfully")

/-! ### Forms router (src/routers/forms.py) -/

/-- src/routers/forms.py `get_feedback_form`: a manager sees only forms they
own (else 403); an employee sees only forms owned by their `manager_id`
(else 403) that are currently active (else 404). -/
def get_feedback_form (db : Store) (current_user : User) (form_id : String) :
    Except ApiError FormDoc :=
  if ¬ objectIdValid form_id then .error (.badRequest "Invalid form ID")
  else
    match db.forms.find? (fun f => decide (f.oid = form_id)) with
    | none => .error (.notFound "Form not found")
    | some form =>
      if current_user.role = Role.manager then
        if form.manager_id ≠ current_user.employee_id then
          .error (.forbidden "You can only view forms you have created")
        else .ok form
      else
        if some form.manager_id ≠ current_user.manager_id then
          .error (.forbidden "You can only view forms created by your manager")
        else if ¬ form.is_active then
          .error (.notFound "Form not found or not active")
        else .ok form

/-- src/routers/forms.py `get_form_submissions`: manager-only (via
`get_current_manager`), owner-only; the matching feedback rows are serialized
directly with `FeedbackResponse(**submission)` — without any call to
`normalize_feedback_data`. -/
def get_form_submissions (db : Store) (current_user : User) (form_id : String) :
    Except ApiError (List FeedbackResponse) :=
  if current_user.role = Role.manager then
    if ¬ objectIdValid form_id then .error (.badRequest "Invalid form ID")
    else
      match db.forms.find? (fun f => decide (f.oid = form_id)) with
      | none => .error (.notFound "Form not found")
      | some form =>
        if form.manager_id ≠ current_user.employee_id then
          .error (.forbidden "You can only view submissions for forms you have created")
        else
          buildResponses (sortByCreatedDesc (db.feedback.filter (fun f =>
            decide (f.form_id = some (some form_id)))))
  else .error (.forbidden "Only managers can access this resource")

/-! ### Dashboard aggregator (src/routers/dashboard.py) -/

/-- Counters for the three canonical sentiments. -/
structure SentCounts where
  positive : Nat := 0
  neutral : Nat := 0
  negative : Nat := 0
deriving DecidableEq, Repr

/-- The dictionary increment `counts[sentiment] += 1` for an
already-normalized sentiment string. -/
def bump (c : SentCounts) (s : String) : SentCounts :=
  if s = "positive" then { c with positive := c.positive + 1 }
  else if s = "negative" then { c with negative := c.negative + 1 }
  else { c with neutral := c.neutral + 1 }

/-- Pointwise addition of sentiment counters. -/
def addC (a b : SentCounts) : SentCounts :=
  { positive := a.positive + b.positive
    neutral := a.neutral + b.neutral
    negative := a.negative + b.negative }

/-- The normalized sentiment tally of a feedback list (a specification-side
characterization of the per-member loop, proved equal to it below). -/
def countNorm : List FeedbackDoc → SentCounts
  | [] => {}
  | f :: fs => addC (bump {} (normalize_sentiment f.overall_sentiment)) (countNorm fs)

/-- The inner loop of `get_manager_dashboard` over one member's feedback:
each row bumps the member distribution and the shared trends counter with the
same normalized sentiment, and tracks the latest `created_at`. -/
def memberScan (fs : List FeedbackDoc) (dist : SentCounts) (latest : Option Nat)
    (trends : SentCounts) : SentCounts × Option Nat × SentCounts :=
  match fs with
  | [] => (dist, latest, trends)
  | f :: fs =>
    let s := normalize_sentiment f.overall_sentiment
    let latest2 := match latest with
      | none => some f.created_at
      | some d => if d < f.created_at then some f.created_at else some d
    memberScan fs (bump dist s) latest2 (bump trends s)

/-- One `TeamMemberStats` entry of the manager dashboard. -/
structure TeamMemberStats where
  employee_id : String
  full_name : String
  feedback_count : Nat
  latest_feedback_date : Option Nat
  sentiment_distribution : SentCounts
deriving DecidableEq, Repr

/-- The outer loop of `get_manager_dashboard`: one pass over the team,
threading the shared `sentiment_trends` accumulator through the members. -/
def dashboardLoop (all_feedback : List FeedbackDoc) (members : List User)
    (trends : SentCounts) : List TeamMemberStats × SentCounts :=
  match members with
  | [] => ([], trends)
  | member :: rest =>
    let member_feedback := all_feedback.filter (fun f =>
      decide (f.employee_id = member.employee_id))
    let scan := memberScan member_feedback {} none trends
    let stats : TeamMemberStats :=
      { employee_id := member.employee_id
        full_name := member.full_name
        feedback_count := member_feedback.length
        latest_feedback_date := scan.2.1
        sentiment_distribution := scan.1 }
    let tail := dashboardLoop all_feedback rest scan.2.2
    (stats :: tail.1, tail.2)

/-- The `ManagerDashboard` response model. -/
structure ManagerDashboard where
  team_size : Nat
  total_feedback_given : Nat
  team_members : List TeamMemberStats
  sentiment_trends : SentCounts
  active_forms_count : Nat
  form_submissions_count : Nat
deriving DecidableEq, Repr

/-- src/routers/dashboard.py `get_manager_dashboard`. The team is the active
employees reporting to the caller; `all_feedback` is every row with the
caller's `manager_id`; `form_submissions_count` counts the rows whose
`form_id` field exists (Mongo `$exists: True` — it also matches a stored
null). -/
def get_manager_dashboard (db : Store) (current_user : User) :
    Except ApiError ManagerDashboard :=
  if current_user.role = Role.manager then
    let team_members := db.users.filter (fun u =>
      decide (u.manager_id = some current_user.employee_id ∧
        u.role = Role.employee ∧ u.is_active = true))
    let all_feedback := db.feedback.filter (fun f =>
      decide (f.manager_id = current_user.employee_id))
    let loop := dashboardLoop all_feedback team_members {}
    let active_forms_count := (db.forms.filter (fun f =>
      decide (f.manager_id = current_user.employee_id ∧ f.is_active = true))).length
    let form_submissions_count := (db.feedback.filter (fun f =>
      decide (f.manager_id = current_user.employee_id) && f.form_id.isSome)).length
    .ok { team_size := team_members.length
          total_feedback_given := all_feedback.length
          team_members := loop.1
          sentiment_trends := loop.2
          active_forms_count := active_forms_count
          form_submissions_count := form_submissions_count }
  else .error (.forbidden "Only managers can access this dashboard")

/-! ### Form field id and name derivation (src/models.py FormField) -/

/-- Python truthiness of an optional string: missing, None and the empty
string are all falsy. -/
def strFalsy : Option String → Bool
  | none => true
  | some s => s = ""

/-- Python `label.lower().replace(" ", "_")`. -/
def slugId (label : String) : String :=
  String.mk ((lowerStr label).toList.map (fun c => if c = ' ' then '_' else c))

/-- Python `label.strip().split()`: split on whitespace runs, dropping empty
words, so leading and trailing whitespace is irrelevant. -/
def pyWords (s : String) : List String :=
  let step : Char → List Char × List String → List Char × List String :=
    fun c acc =>
      if c.isWhitespace then
        ([], if acc.1 = [] then acc.2 else String.mk acc.1 :: acc.2)
      else (c :: acc.1, acc.2)
  let r := s.toList.foldr step ([], [])
  if r.1 = [] then r.2 else String.mk r.1 :: r.2

/-- Python `str.capitalize()`: first character upper-cased, the rest
lower-cased. -/
def pyCapitalize (w : String) : String :=
  match w.toList with
  | [] => ""
  | c :: cs => String.mk (c.toUpper :: cs.map Char.toLower)

/-- src/models.py `FormField.to_camel_case`. `words[0]` raises IndexError on
a whitespace-only label, modelled here as `none`. -/
def to_camel_case (label : String) : Option String :=
  match pyWords label with
  | [] => none
  | w :: ws => some (lowerStr w ++ String.join (ws.map pyCapitalize))

/-- src/models.py `FormField.auto_generate_id_and_name`: for a truthy label,
a falsy `id` is replaced by the slug and a falsy `name` by the camelCase
form; `none` models the validator raising (IndexError inside
`to_camel_case`), in which case no field is created. -/
def auto_generate_id_and_name (id name : Option String) (label : String) :
    Option (Option String × Option String) :=
  if label = "" then some (id, name)
  else if strFalsy name then
    match to_camel_case label with
    | none => none
    | some n => some ((if strFalsy id then some (slugId label) else id), some n)
  else some ((if strFalsy id then some (slugId label) else id), name)

/-- Construction of a validated `FormField` from request values: the root
validator runs first and derives the missing identifiers. -/
def mkFormField (id name : Option String) (label ftype : String)
    (required : Bool) (options : Option (List String))
    (placeholder : Option String) : Option FormField :=
  (auto_generate_id_and_name id name label).map (fun r =>
    { id := r.1, label := label, ftype := ftype, required := required
      options := options, placeholder := placeholder, name := r.2 })

/-! ### Helper lemmas -/

theorem parseSentimentOk_normalize (s : String) :
    parseSentimentOk (normalize_sentiment s) = true := by
  unfold normalize_sentiment parseSentimentOk
  split_ifs <;> rfl

theorem normalize_sentiment_cases (s : String) :
    normalize_sentiment s = "positive" ∨ normalize_sentiment s = "neutral" ∨
      normalize_sentiment s = "negative" := by
  unfold normalize_sentiment
  split_ifs <;> simp

theorem mkFeedbackResponse_normalizeDoc (d : FeedbackDoc) :
    mkFeedbackResponse (normalizeDoc d) = .ok (responseOf (normalizeDoc d)) := by
  unfold mkFeedbackResponse
  rw [show (normalizeDoc d).overall_sentiment = normalize_sentiment d.overall_sentiment
    from rfl, parseSentimentOk_normalize]
  rfl

theorem mem_insertDesc {x f : FeedbackDoc} {l : List FeedbackDoc} :
    x ∈ insertDesc f l ↔ x = f ∨ x ∈ l := by
  induction l with
  | nil => simp [insertDesc]
  | cons g gs ih =>
    unfold insertDesc
    split_ifs
    · simp only [List.mem_cons, ih]
      tauto
    · simp only [List.mem_cons]

theorem mem_sortByCreatedDesc {x : FeedbackDoc} {l : List FeedbackDoc} :
    x ∈ sortByCreatedDesc l ↔ x ∈ l := by
  induction l with
  | nil => simp [sortByCreatedDesc]
  | cons g gs ih =>
    unfold sortByCreatedDesc at *
    simp only [List.foldr_cons, mem_insertDesc, ih, List.mem_cons]

theorem buildResponses_ok_mem {l : List FeedbackDoc} {rs : List FeedbackResponse}
    (h : buildResponses l = .ok rs) :
    ∀ r ∈ rs, ∃ d ∈ l, mkFeedbackResponse d = .ok r := by
  induction l generalizing rs with
  | nil =>
    unfold buildResponses at h
    cases h
    simp
  | cons d ds ih =>
    unfold buildResponses at h
    cases hd : mkFeedbackResponse d with
    | error e => rw [hd] at h; cases h
    | ok r0 =>
      rw [hd] at h
      cases hds : buildResponses ds with
      | error e => rw [hds] at h; cases h
      | ok rs0 =>
        rw [hds] at h
        cases h
        intro r hr
        rcases List.mem_cons.mp hr with h1 | h2
        · exact ⟨d, List.mem_cons_self d ds, by rw [hd, h1]⟩
        · obtain ⟨d2, hd2, hmk⟩ := ih hds r h2
          exact ⟨d2, List.mem_cons_of_mem d hd2, hmk⟩

theorem find?_updateFirst {p : FeedbackDoc → Bool} {g : FeedbackDoc → FeedbackDoc}
    {l : List FeedbackDoc} {x : FeedbackDoc}
    (h : l.find? p = some x) (hg : p (g x) = true) :
    (updateFirst p g l).find? p = some (g x) := by
  induction l with
  | nil => cases h
  | cons f fs ih =>
    unfold updateFirst
    by_cases hp : p f = true
    · rw [List.find?_cons_of_pos _ hp] at h
      cases h
      rw [if_pos hp]
      exact List.find?_cons_of_pos _ hg
    · rw [List.find?_cons_of_neg _ hp] at h
      rw [if_neg hp, List.find?_cons_of_neg _ hp]
      exact ih h

theorem addC_zero (c : SentCounts) : addC c {} = c := by
  cases c; rfl

theorem zero_addC (c : SentCounts) : addC {} c = c := by
  cases c; simp [addC]

theorem addC_assoc (a b c : SentCounts) : addC (addC a b) c = addC a (addC b c) := by
  cases a; cases b; cases c
  simp [addC, Nat.add_assoc]

theorem bump_eq_addC (c : SentCounts) (s : String) :
    bump c s = addC c (bump {} s) := by
  cases c
  unfold bump
  split_ifs <;> rfl

theorem memberScan_dist (fs : List FeedbackDoc) :
    ∀ (d : SentCounts) (l : Option Nat) (t : SentCounts),
      (memberScan fs d l t).1 = addC d (countNorm fs) := by
  induction fs with
  | nil => intro d l t; simp only [memberScan, countNorm]; rw [addC_zero]
  | cons f fs ih =>
    intro d l t
    simp only [memberScan, countNorm]
    rw [ih, bump_eq_addC, addC_assoc]

theorem memberScan_trends (fs : List FeedbackDoc) :
    ∀ (d : SentCounts) (l : Option Nat) (t : SentCounts),
      (memberScan fs d l t).2.2 = addC t (countNorm fs) := by
  induction fs with
  | nil => intro d l t; simp only [memberScan, countNorm]; rw [addC_zero]
  | cons f fs ih =>
    intro d l t
    simp only [memberScan, countNorm]
    rw [ih, bump_eq_addC, addC_assoc]

theorem memberScan_latest (fs : List FeedbackDoc) :
    ∀ (d d2 : SentCounts) (l : Option Nat) (t t2 : SentCounts),
      (memberScan fs d l t).2.1 = (memberScan fs d2 l t2).2.1 := by
  induction fs with
  | nil => intro d d2 l t t2; simp only [memberScan]
  | cons f fs ih =>
    intro d d2 l t t2
    simp only [memberScan]
    exact ih _ _ _ _ _

/-- The statistics record the dashboard builds for one team member, stated
independently of the threaded trends accumulator. -/
def statsFor (all_feedback : List FeedbackDoc) (member : User) : TeamMemberStats :=
  let member_feedback := all_feedback.filter (fun f =>
    decide (f.employee_id = member.employee_id))
  { employee_id := member.employee_id
    full_name := member.full_name
    feedback_count := member_feedback.length
    latest_feedback_date := (memberScan member_feedback {} none {}).2.1
    sentiment_distribution := countNorm member_feedback }

/-- Sum of the members' sentiment distributions. -/
def sumDists : List TeamMemberStats → SentCounts
  | [] => {}
  | m :: ms => addC m.sentiment_distribution (sumDists ms)

theorem dashboardLoop_members (fb : List FeedbackDoc) (ms : List User) :
    ∀ t : SentCounts, (dashboardLoop fb ms t).1 = ms.map (statsFor fb) := by
  induction ms with
  | nil => intro t; simp only [dashboardLoop, List.map_nil]
  | cons m ms ih =>
    intro t
    simp only [dashboardLoop, List.map_cons, ih]
    refine congrArg (fun s => s :: ms.map (statsFor fb)) ?_
    unfold statsFor
    rw [memberScan_dist, zero_addC, memberScan_latest _ _ {} _ _ {}]

theorem dashboardLoop_trends (fb : List FeedbackDoc) (ms : List User) :
    ∀ t : SentCounts,
      (dashboardLoop fb ms t).2 = addC t (sumDists (dashboardLoop fb ms t).1) := by
  induction ms with
  | nil => intro t; simp only [dashboardLoop, sumDists]; rw [addC_zero]
  | cons m ms ih =>
    intro t
    simp only [dashboardLoop, sumDists]
    rw [ih, memberScan_trends, memberScan_dist, zero_addC, addC_assoc]

theorem sumDists_positive (l : List TeamMemberStats) :
    (sumDists l).positive = (l.map (fun m => m.sentiment_distribution.positive)).sum := by
  induction l with
  | nil => rfl
  | cons m ms ih => rw [sumDists, List.map_cons, List.sum_cons, ← ih]; rfl

theorem sumDists_neutral (l : List TeamMemberStats) :
    (sumDists l).neutral = (l.map (fun m => m.sentiment_distribution.neutral)).sum := by
  induction l with
  | nil => rfl
  | cons m ms ih => rw [sumDists, List.map_cons, List.sum_cons, ← ih]; rfl

theorem sumDists_negative (l : List TeamMemberStats) :
    (sumDists l).negative = (l.map (fun m => m.sentiment_distribution.negative)).sum := by
  induction l with
  | nil => rfl
  | cons m ms ih => rw [sumDists, List.map_cons, List.sum_cons, ← ih]; rfl

/-- A feedback document whose `form_id` field is present with a non-null
value — i.e. a row actually created through a form submission. -/
def formIdNonNull (f : FeedbackDoc) : Bool :=
  match f.form_id with
  | some (some _) => true
  | _ => false

theorem count_formId_split (p : FeedbackDoc → Bool) (l : List FeedbackDoc) :
    (l.filter (fun f => p f && f.form_id.isSome)).length =
      (l.filter (fun f => p f && formIdNonNull f)).length +
      (l.filter (fun f => p f && decide (f.form_id = some none))).length := by
  induction l with
  | nil => rfl
  | cons f fs ih =>
    rw [List.filter_cons, List.filter_cons, List.filter_cons]
    cases hp : p f with
    | false =>
      rw [if_neg (by simp), if_neg (by simp), if_neg (by simp)]
      exact ih
    | true =>
      cases hfi : f.form_id with
      | none =>
        rw [if_neg (by simp), if_neg (by simp [formIdNonNull, hfi]), if_neg (by simp)]
        exact ih
      | some o =>
        cases o with
        | none =>
          rw [if_pos (by simp), if_neg (by simp [formIdNonNull, hfi]), if_pos (by simp)]
          simp only [List.length_cons]
          omega
        | some s =>
          rw [if_pos (by simp), if_pos (by simp [formIdNonNull, hfi]), if_neg (by simp)]
          simp only [List.length_cons]
          omega

theorem mkFeedbackResponse_ok_inv {d : FeedbackDoc} {r : FeedbackResponse}
    (h : mkFeedbackResponse d = .ok r) :
    r = responseOf d ∧ parseSentimentOk d.overall_sentiment = true := by
  unfold mkFeedbackResponse at h
  by_cases hp : parseSentimentOk d.overall_sentiment = true
  · rw [if_pos hp] at h
    cases h
    exact ⟨rfl, hp⟩
  · rw [if_neg hp] at h
    cases h

theorem buildResponses_normalized_mem {fb : List FeedbackDoc}
    {p : FeedbackDoc → Bool} {l : List FeedbackResponse}
    (h : buildResponses ((sortByCreatedDesc (fb.filter p)).map normalizeDoc) = .ok l) :
    ∀ r ∈ l, ∃ d ∈ fb, r = responseOf (normalizeDoc d) := by
  intro r hr
  obtain ⟨d2, hd2, hmk⟩ := buildResponses_ok_mem h r hr
  obtain ⟨d, hd, hnd⟩ := List.mem_map.mp hd2
  refine ⟨d, List.mem_of_mem_filter (mem_sortByCreatedDesc.mp hd), ?_⟩
  rw [← hnd] at hmk
  exact (mkFeedbackResponse_ok_inv hmk).1

/-- The effect of deactivating or reactivating one user in the store. -/
def setActiveUsers (uid : String) (b : Bool) (l : List User) : List User :=
  l.map (fun v => if v.uid = uid then { v with is_active := b } else v)

theorem find?_setActiveUsers {l : List User} {uid : String} {u : User} (b : Bool)
    (h : l.find? (fun v => decide (v.uid = uid)) = some u) :
    (setActiveUsers uid b l).find? (fun v => decide (v.uid = uid)) =
      some { u with is_active := b } := by
  induction l with
  | nil => cases h
  | cons v vs ih =>
    unfold setActiveUsers at *
    rw [List.map_cons]
    by_cases hv : v.uid = uid
    · rw [List.find?_cons_of_pos _ (by simpa using hv)] at h
      cases h
      rw [if_pos hv]
      exact List.find?_cons_of_pos _ (by simpa using hv)
    · rw [List.find?_cons_of_neg _ (by simpa using hv)] at h
      rw [if_neg hv, List.find?_cons_of_neg _ (by simpa using hv)]
      exact ih h

/-! ### Concrete fixtures -/

def exMgr : User :=
  { uid := "0123456789abcdef01234567", email := "manager@example.com"
    password := hashPassword "pw1", full_name := "Mona Manager"
    role := Role.manager, employee_id := "M1" }

def exEmp : User :=
  { uid := "0123456789abcdef01234568", email := "employee@example.com"
    password := hashPassword "pw2", full_name := "Eve Employee"
    role := Role.employee, employee_id := "E1", manager_id := some "M1" }

def exEmp2 : User :=
  { uid := "0123456789abcdef01234569", email := "employee2@example.com"
    password := hashPassword "pw3", full_name := "Ed Employee"
    role := Role.employee, employee_id := "E2", manager_id := some "M1" }

def exFormId : String := "aaaaaaaaaaaaaaaaaaaaaaaa"

def exFbId : String := "bbbbbbbbbbbbbbbbbbbbbbbb"

def exMissingId : String := "cccccccccccccccccccccccc"

def exForm : FormDoc :=
  { oid := exFormId, title := "Quarterly Review", manager_id := "M1" }

def exFormInactive : FormDoc :=
  { oid := exFormId, title := "Quarterly Review", manager_id := "M1", is_active := false }

/-- A stored feedback row with a legacy sentiment spelling and a real form
reference. -/
def exDocPos : FeedbackDoc :=
  { fid := exFbId, employee_id := "E1", manager_id := "M1"
    strengths := "solid work", areas_to_improve := "planning"
    overall_sentiment := "POS", form_id := some (some exFormId), created_at := 5 }

/-- A stored feedback row created without a form: the `form_id` field is
present and null, exactly as `create_feedback` stores it. -/
def exDocNull : FeedbackDoc :=
  { fid := exFbId, employee_id := "E1", manager_id := "M1"
    strengths := "solid work", areas_to_improve := "planning"
    overall_sentiment := "neutral", form_id := some none, created_at := 5 }

def exStore : Store :=
  { users := [exMgr, exEmp, exEmp2], feedback := [exDocPos], forms := [exForm] }

def exStoreNull : Store := { users := [], feedback := [exDocNull] }

def exStoreInactive : Store := { users := [exMgr, exEmp], forms := [exFormInactive] }

def exRespPos : FeedbackResponse := responseOf (normalizeDoc exDocPos)

/-! ### Claims -/

theorem get_feedback_by_id_found (db : Store) (u : User) {feedback_id : String}
    {f : FeedbackDoc} (hv : objectIdValid feedback_id = true)
    (hf : db.feedback.find? (fun g => decide (g.fid = feedback_id)) = some f) :
    get_feedback_by_id db u feedback_id =
      (if u.role = Role.manager then
        (if f.manager_id ≠ u.employee_id then
          .error (.forbidden "You can only view feedback you have given")
        else mkFeedbackResponse (normalizeDoc f))
       else
        (if f.employee_id ≠ u.employee_id then
          .error (.forbidden "You can only view your own feedback")
        else mkFeedbackResponse (normalizeDoc f))) := by
  unfold get_feedback_by_id
  rw [if_neg (by simp [hv]), hf]

/-- C3: for an existing row, ownership mismatch yields Forbidden (403), never
NotFound; NotFound is returned only when the lookup finds no row, and
BadRequest only when the id is malformed. -/
theorem C3_single_feedback_access (db : Store) (current_user : User)
    (feedback_id : String) :
    (objectIdValid feedback_id = false →
      get_feedback_by_id db current_user feedback_id =
        .error (.badRequest "Invalid feedback ID")) ∧
    (objectIdValid feedback_id = true →
      db.feedback.find? (fun f => decide (f.fid = feedback_id)) = none →
      get_feedback_by_id db current_user feedback_id =
        .error (.notFound "Feedback not found")) ∧
    (∀ f, db.feedback.find? (fun g => decide (g.fid = feedback_id)) = some f →
      objectIdValid feedback_id = true →
      current_user.role = Role.employee → f.employee_id ≠ current_user.employee_id →
      get_feedback_by_id db current_user feedback_id =
        .error (.forbidden "You can only view your own feedback")) ∧
    (∀ f, db.feedback.find? (fun g => decide (g.fid = feedback_id)) = some f →
      objectIdValid feedback_id = true →
      current_user.role = Role.manager → f.manager_id ≠ current_user.employee_id →
      get_feedback_by_id db current_user feedback_id =
        .error (.forbidden "You can only view feedback you have given")) ∧
    (∀ m, get_feedback_by_id db current_user feedback_id = .error (.notFound m) →
      db.feedback.find? (fun f => decide (f.fid = feedback_id)) = none) ∧
    (∀ m, get_feedback_by_id db current_user feedback_id = .error (.badRequest m) →
      objectIdValid feedback_id = false) := by
  refine ⟨?_, ?_, ?_, ?_, ?_, ?_⟩
  · intro h
    unfold get_feedback_by_id
    rw [if_pos (by simp [h])]
  · intro hv hf
    unfold get_feedback_by_id
    rw [if_neg (by simp [hv]), hf]
  · intro f hf hv hrole hne
    rw [get_feedback_by_id_found db current_user hv hf,
      if_neg (by simp [hrole]), if_pos hne]
  · intro f hf hv hrole hne
    rw [get_feedback_by_id_found db current_user hv hf, if_pos hrole, if_pos hne]
  · intro m h
    by_cases hv : objectIdValid feedback_id = true
    · cases hfq : db.feedback.find? (fun f => decide (f.fid = feedback_id)) with
      | none => rfl
      | some f =>
        exfalso
        rw [get_feedback_by_id_found db current_user hv hfq] at h
        by_cases hr : current_user.role = Role.manager
        · rw [if_pos hr] at h
          by_cases hne : f.manager_id ≠ current_user.employee_id
          · rw [if_pos hne] at h; cases h
          · rw [if_neg hne, mkFeedbackResponse_normalizeDoc] at h; cases h
        · rw [if_neg hr] at h
          by_cases hne : f.employee_id ≠ current_user.employee_id
          · rw [if_pos hne] at h; cases h
          · rw [if_neg hne, mkFeedbackResponse_normalizeDoc] at h; cases h
    · exfalso
      unfold get_feedback_by_id at h
      rw [if_pos (by simpa using hv)] at h
      cases h
  · intro m h
    by_cases hv : objectIdValid feedback_id = true
    · exfalso
      cases hfq : db.feedback.find? (fun f => decide (f.fid = feedback_id)) with
      | none =>
        unfold get_feedback_by_id at h
        rw [if_neg (by simp [hv]), hfq] at h
        cases h
      | some f =>
        rw [get_feedback_by_id_found db current_user hv hfq] at h
        by_cases hr : current_user.role = Role.manager
        · rw [if_pos hr] at h
          by_cases hne : f.manager_id ≠ current_user.employee_id
          · rw [if_pos hne] at h; cases h
          · rw [if_neg hne, mkFeedbackResponse_normalizeDoc] at h; cases h
        · rw [if_neg hr] at h
          by_cases hne : f.employee_id ≠ current_user.employee_id
          · rw [if_pos hne] at h; cases h
          · rw [if_neg hne, mkFeedbackResponse_normalizeDoc] at h; cases h
    · simpa using hv

/-- C3 witness: a team-mate employee gets 403 on an existing row owned by
another employee; a valid unknown id gets 404; a malformed id gets 400. -/
theorem C3_witness :
    get_feedback_by_id exStore exEmp2 exFbId =
      .error (.forbidden "You can only view your own feedback") ∧
    get_feedback_by_id exStore exEmp2 exMissingId =
      .error (.notFound "Feedback not found") ∧
    get_feedback_by_id exStore exEmp2 "zz" =
      .error (.badRequest "Invalid feedback ID") := by
  refine ⟨?_, ?_, ?_⟩
  · exact (C3_single_feedback_access exStore exEmp2 exFbId).2.2.1 exDocPos
      (by rfl) (by rfl) (by rfl) (by decide)
  · exact (C3_single_feedback_access exStore exEmp2 exMissingId).2.1 (by rfl) (by rfl)
  · exact (C3_single_feedback_access exStore exEmp2 "zz").1 (by rfl)

/-- C4: an inactive form is NotFound (404) to an employee whose `manager_id`
is the owner, while the owning manager still receives the form (200). -/
theorem C4_inactive_form_visibility (db : Store) (form_id : String) (form : FormDoc)
    (hv : objectIdValid form_id = true)
    (hf : db.forms.find? (fun f => decide (f.oid = form_id)) = some form)
    (hinactive : form.is_active = false) :
    (∀ u : User, u.role = Role.employee → u.manager_id = some form.manager_id →
      get_feedback_form db u form_id = .error (.notFound "Form not found or not active")) ∧
    (∀ u : User, u.role = Role.manager → u.employee_id = form.manager_id →
      get_feedback_form db u form_id = .ok form) := by
  have hfound : ∀ u : User, get_feedback_form db u form_id =
      (if u.role = Role.manager then
        (if form.manager_id ≠ u.employee_id then
          .error (.forbidden "You can only view forms you have created")
        else .ok form)
       else
        (if some form.manager_id ≠ u.manager_id then
          .error (.forbidden "You can only view forms created by your manager")
        else if ¬ form.is_active then
          .error (.notFound "Form not found or not active")
        else .ok form)) := by
    intro u
    unfold get_feedback_form
    rw [if_neg (by simp [hv]), hf]
  constructor
  · intro u hrole hmgr
    rw [hfound u, if_neg (by simp [hrole]), if_neg (by rw [hmgr]; simp),
      if_pos (by simp [hinactive])]
  · intro u hrole hown
    rw [hfound u, if_pos hrole, if_neg (by rw [hown]; simp)]

/-- C4 witness: the same stored inactive form is 404 for the team employee
and 200 for the owning manager. -/
theorem C4_witness :
    get_feedback_form exStoreInactive exEmp exFormId =
      .error (.notFound "Form not found or not active") ∧
    get_feedback_form exStoreInactive exMgr exFormId = .ok exFormInactive := by
  constructor
  · exact (C4_inactive_form_visibility exStoreInactive exFormId exFormInactive
      (by rfl) (by rfl) (by rfl)).1 exEmp (by rfl) (by rfl)
  · exact (C4_inactive_form_visibility exStoreInactive exFormId exFormInactive
      (by rfl) (by rfl) (by rfl)).2 exMgr (by rfl) (by rfl)

/-- C9 counterexample: an explicitly supplied empty-string `id` is falsy in
the source validator, so it is NOT kept unchanged — it is re-derived from the
label. -/
theorem C9_counterexample :
    auto_generate_id_and_name (some "") none "Team Spirit" =
      some (some "team_spirit", some "teamSpirit") ∧
    ("team_spirit" : String) ≠ "" := by
  exact ⟨by rfl, by decide⟩

/-- C9 (amended): for a field with a truthy label, a missing or empty `id`
derives the lowercased underscore slug and a missing or empty `name` derives
the camelCase form (first word lowercased, later words capitalized,
concatenated); an explicitly supplied non-empty `id` or `name` is kept
unchanged; an explicitly supplied empty string counts as absent and is
re-derived. -/
theorem C9_field_id_name_derivation (id name : Option String) (label : String)
    (hlabel : ¬ label = "") :
    (strFalsy id = true → strFalsy name = true → ∀ cc, to_camel_case label = some cc →
      auto_generate_id_and_name id name label = some (some (slugId label), some cc)) ∧
    (strFalsy id = false → strFalsy name = true → ∀ cc, to_camel_case label = some cc →
      auto_generate_id_and_name id name label = some (id, some cc)) ∧
    (strFalsy name = false →
      auto_generate_id_and_name id name label =
        some ((if strFalsy id then some (slugId label) else id), name)) ∧
    (∀ w ws, pyWords label = w :: ws →
      to_camel_case label = some (lowerStr w ++ String.join (ws.map pyCapitalize))) := by
  refine ⟨?_, ?_, ?_, ?_⟩
  · intro hid hname cc hcc
    unfold auto_generate_id_and_name
    rw [if_neg hlabel, if_pos hname, hcc, if_pos hid]
  · intro hid hname cc hcc
    unfold auto_generate_id_and_name
    rw [if_neg hlabel, if_pos hname, hcc, if_neg (by simp [hid])]
  · intro hname
    unfold auto_generate_id_and_name
    rw [if_neg hlabel, if_neg (by simp [hname])]
  · intro w ws hw
    unfold to_camel_case
    rw [hw]

/-- C9 witness: label "Team Spirit" with no explicit id or name derives
id "team_spirit" and name "teamSpirit". -/
theorem C9_witness :
    auto_generate_id_and_name none none "Team Spirit" =
      some (some (slugId "Team Spirit"), some "teamSpirit") := by
  exact (C9_field_id_name_derivation none none "Team Spirit" (by decide)).1
    (by rfl) (by rfl) "teamSpirit" (by rfl)

/-- C5: feedback create by a manager succeeds only when the target is a
stored employee of the caller's team; otherwise it fails with NotFound and
inserts nothing. On success the appended row carries the caller's
`manager_id` and `is_acknowledged = false`. -/
theorem C5_feedback_create_team_guard (db : Store) (current_user : User)
    (payload : FeedbackCreate) (now : Nat) (newId : String)
    (hrole : current_user.role = Role.manager) :
    (∀ emp, db.users.find? (fun u => decide (u.employee_id = payload.employee_id ∧
        u.manager_id = some current_user.employee_id ∧ u.role = Role.employee)) = some emp →
      emp.employee_id = payload.employee_id ∧
      emp.manager_id = some current_user.employee_id ∧ emp.role = Role.employee) ∧
    (db.users.find? (fun u => decide (u.employee_id = payload.employee_id ∧
        u.manager_id = some current_user.employee_id ∧ u.role = Role.employee)) = none →
      create_feedback db current_user payload now newId =
        (db, .error (.notFound "Employee not found or not in your team"))) ∧
    (∀ emp, db.users.find? (fun u => decide (u.employee_id = payload.employee_id ∧
        u.manager_id = some current_user.employee_id ∧ u.role = Role.employee)) = some emp →
      create_feedback db current_user payload now newId =
        ({ db with feedback :=
            db.feedback ++ [createdFeedbackDoc current_user payload now newId] },
         .ok (responseOf (normalizeDoc (createdFeedbackDoc current_user payload now newId)))) ∧
      (createdFeedbackDoc current_user payload now newId).manager_id =
        current_user.employee_id ∧
      (createdFeedbackDoc current_user payload now newId).is_acknowledged = false ∧
      (createdFeedbackDoc current_user payload now newId).employee_id =
        payload.employee_id ∧
      (createdFeedbackDoc current_user payload now newId).created_at = now) := by
  refine ⟨?_, ?_, ?_⟩
  · intro emp h
    have hp := List.find?_some h
    exact of_decide_eq_true hp
  · intro h
    unfold create_feedback
    rw [if_pos hrole, h]
  · intro emp h
    refine ⟨?_, rfl, rfl, rfl, rfl⟩
    unfold create_feedback
    rw [if_pos hrole, h]
    show ({ db with feedback :=
        db.feedback ++ [createdFeedbackDoc current_user payload now newId] },
      mkFeedbackResponse (normalizeDoc (createdFeedbackDoc current_user payload now newId))) = _
    rw [mkFeedbackResponse_normalizeDoc]

/-- C5 witness: creating feedback for the direct report E1 succeeds and
appends the stamped row; creating for the unknown E9 fails with 404 and
leaves the store unchanged. -/
theorem C5_witness :
    create_feedback exStore exMgr
        { employee_id := "E1", strengths := "s", areas_to_improve := "a"
          overall_sentiment := "positive" } 7 exMissingId =
      ({ exStore with feedback := exStore.feedback ++
          [createdFeedbackDoc exMgr
            { employee_id := "E1", strengths := "s", areas_to_improve := "a"
              overall_sentiment := "positive" } 7 exMissingId] },
       .ok (responseOf (normalizeDoc (createdFeedbackDoc exMgr
          { employee_id := "E1", strengths := "s", areas_to_improve := "a"
            overall_sentiment := "positive" } 7 exMissingId)))) ∧
    create_feedback exStore exMgr
        { employee_id := "E9", strengths := "s", areas_to_improve := "a"
          overall_sentiment := "positive" } 7 exMissingId =
      (exStore, .error (.notFound "Employee not found or not in your team")) := by
  constructor
  · exact ((C5_feedback_create_team_guard exStore exMgr
      { employee_id := "E1", strengths := "s", areas_to_improve := "a"
        overall_sentiment := "positive" } 7 exMissingId (by rfl)).2.2 exEmp (by rfl)).1
  · exact (C5_feedback_create_team_guard exStore exMgr
      { employee_id := "E9", strengths := "s", areas_to_improve := "a"
        overall_sentiment := "positive" } 7 exMissingId (by rfl)).2.1 (by rfl)

theorem acknowledge_found (db : Store) (current_user : User) {feedback_id : String}
    {f : FeedbackDoc} (now : Nat)
    (hrole : current_user.role = Role.employee)
    (hv : objectIdValid feedback_id = true)
    (hf : db.feedback.find? (fun g => decide (g.fid = feedback_id)) = some f) :
    acknowledge_feedback db current_user feedback_id now =
      (if f.employee_id ≠ current_user.employee_id then
        (db, .error (.forbidden "You can only acknowledge your own feedback"))
       else
        ({ db with feedback := updateFirst (fun g => decide (g.fid = feedback_id)) (ackSet now) db.feedback },
         .ok "Feedback acknowledged successfully")) := by
  unfold acknowledge_feedback
  rw [if_neg (by simp [hrole]), if_neg (by simp [hv]), hf]

/-- C6: acknowledging an owned row always succeeds, sets `is_acknowledged`
and stamps `acknowledged_at` with no guard on the prior value; a second
acknowledgement succeeds again, keeps `is_acknowledged` true and overwrites
the timestamp. -/
theorem C6_acknowledge_idempotency (db : Store) (current_user : User)
    (feedback_id : String) (f : FeedbackDoc) (now now2 : Nat)
    (hrole : current_user.role = Role.employee)
    (hv : objectIdValid feedback_id = true)
    (hf : db.feedback.find? (fun g => decide (g.fid = feedback_id)) = some f)
    (hown : f.employee_id = current_user.employee_id) :
    (acknowledge_feedback db current_user feedback_id now).2 =
      .ok "Feedback acknowledged successfully" ∧
    ((acknowledge_feedback db current_user feedback_id now).1).feedback.find?
        (fun g => decide (g.fid = feedback_id)) =
      some { f with is_acknowledged := true, acknowledged_at := some now } ∧
    (acknowledge_feedback (acknowledge_feedback db current_user feedback_id now).1
        current_user feedback_id now2).2 = .ok "Feedback acknowledged successfully" ∧
    ((acknowledge_feedback (acknowledge_feedback db current_user feedback_id now).1
        current_user feedback_id now2).1).feedback.find?
        (fun g => decide (g.fid = feedback_id)) =
      some { f with is_acknowledged := true, acknowledged_at := some now2 } := by
  have hpf := List.find?_some hf
  have h1 : acknowledge_feedback db current_user feedback_id now =
      ({ db with feedback := updateFirst (fun g => decide (g.fid = feedback_id)) (ackSet now) db.feedback },
       .ok "Feedback acknowledged successfully") := by
    rw [acknowledge_found db current_user now hrole hv hf, if_neg (by simp [hown])]
  have h2 : ((acknowledge_feedback db current_user feedback_id now).1).feedback.find?
      (fun g => decide (g.fid = feedback_id)) =
      some { f with is_acknowledged := true, acknowledged_at := some now } := by
    rw [h1]
    exact find?_updateFirst hf hpf
  have h3 : acknowledge_feedback (acknowledge_feedback db current_user feedback_id now).1
      current_user feedback_id now2 =
      ({ (acknowledge_feedback db current_user feedback_id now).1 with
          feedback := updateFirst (fun g => decide (g.fid = feedback_id)) (ackSet now2) ((acknowledge_feedback db current_user feedback_id now).1).feedback },
       .ok "Feedback acknowledged successfully") := by
    rw [acknowledge_found (acknowledge_feedback db current_user feedback_id now).1
      current_user now2 hrole hv h2, if_neg (by simp [hown])]
  refine ⟨by rw [h1], h2, by rw [h3], ?_⟩
  rw [h3]
  exact @find?_updateFirst _ _ _
    { f with is_acknowledged := true, acknowledged_at := some now } h2 (by exact hpf)

/-- C6 witness: double acknowledgement of a concrete owned row succeeds both
times; after the second call the stored timestamp is the second instant. -/
theorem C6_witness :
    ((acknowledge_feedback (acknowledge_feedback exStore exEmp exFbId 7).1
        exEmp exFbId 9).1).feedback.find?
      (fun g => decide (g.fid = exFbId)) =
      some { exDocPos with is_acknowledged := true, acknowledged_at := some 9 } := by
  exact (C6_acknowledge_idempotency exStore exEmp exFbId exDocPos 7 9
    (by rfl) (by rfl) (by rfl) (by rfl)).2.2.2

theorem update_found (db : Store) (current_user : User) {feedback_id : String}
    {f : FeedbackDoc} (patch : FeedbackUpdate) (now : Nat)
    (hrole : current_user.role = Role.manager)
    (hv : objectIdValid feedback_id = true)
    (hf : db.feedback.find? (fun g => decide (g.fid = feedback_id)) = some f)
    (hown : f.manager_id = current_user.employee_id) :
    update_feedback db current_user feedback_id patch now =
      ({ db with feedback := updateFirst (fun g => decide (g.fid = feedback_id)) (applyFeedbackPatch patch now) db.feedback },
       .ok (responseOf (normalizeDoc (applyFeedbackPatch patch now f)))) := by
  have hpf := List.find?_some hf
  have h2 : (updateFirst (fun g => decide (g.fid = feedback_id))
      (applyFeedbackPatch patch now) db.feedback).find?
      (fun g => decide (g.fid = feedback_id)) =
      some (applyFeedbackPatch patch now f) := find?_updateFirst hf (by exact hpf)
  simp [update_feedback, hrole, hv, hf, hown, h2, mkFeedbackResponse_normalizeDoc]

/-- C8: update applies partial-patch semantics — null patch fields keep the
stored value, non-null fields overwrite, `updated_at` is stamped on every
update (even an empty patch), and the fields outside the patch model are
never altered. -/
theorem C8_update_partial_patch (db : Store) (current_user : User)
    (feedback_id : String) (f : FeedbackDoc) (patch : FeedbackUpdate) (now : Nat)
    (hrole : current_user.role = Role.manager)
    (hv : objectIdValid feedback_id = true)
    (hf : db.feedback.find? (fun g => decide (g.fid = feedback_id)) = some f)
    (hown : f.manager_id = current_user.employee_id) :
    (update_feedback db current_user feedback_id patch now).2 =
      .ok (responseOf (normalizeDoc (applyFeedbackPatch patch now f))) ∧
    ((update_feedback db current_user feedback_id patch now).1).feedback.find?
        (fun g => decide (g.fid = feedback_id)) =
      some (applyFeedbackPatch patch now f) ∧
    (patch.strengths = none → (applyFeedbackPatch patch now f).strengths = f.strengths) ∧
    (∀ v, patch.strengths = some v → (applyFeedbackPatch patch now f).strengths = v) ∧
    (patch.areas_to_improve = none →
      (applyFeedbackPatch patch now f).areas_to_improve = f.areas_to_improve) ∧
    (∀ v, patch.areas_to_improve = some v →
      (applyFeedbackPatch patch now f).areas_to_improve = v) ∧
    (patch.overall_sentiment = none →
      (applyFeedbackPatch patch now f).overall_sentiment = f.overall_sentiment) ∧
    (∀ v, patch.overall_sentiment = some v →
      (applyFeedbackPatch patch now f).overall_sentiment = v) ∧
    (patch.additional_notes = none →
      (applyFeedbackPatch patch now f).additional_notes = f.additional_notes) ∧
    (∀ v, patch.additional_notes = some v →
      (applyFeedbackPatch patch now f).additional_notes = some v) ∧
    (patch.form_data = none → (applyFeedbackPatch patch now f).form_data = f.form_data) ∧
    (∀ v, patch.form_data = some v → (applyFeedbackPatch patch now f).form_data = some v) ∧
    (applyFeedbackPatch patch now f).updated_at = some now ∧
    (applyFeedbackPatch patch now f).employee_id = f.employee_id ∧
    (applyFeedbackPatch patch now f).manager_id = f.manager_id ∧
    (applyFeedbackPatch patch now f).created_at = f.created_at ∧
    (applyFeedbackPatch patch now f).is_acknowledged = f.is_acknowledged ∧
    (applyFeedbackPatch patch now f).acknowledged_at = f.acknowledged_at ∧
    (applyFeedbackPatch patch now f).form_id = f.form_id := by
  have hfound := update_found db current_user patch now hrole hv hf hown
  have hpf := List.find?_some hf
  refine ⟨by rw [hfound], ?_, ?_, ?_, ?_, ?_, ?_, ?_, ?_, ?_, ?_, ?_,
    rfl, rfl, rfl, rfl, rfl, rfl, rfl⟩
  · rw [hfound]
    exact find?_updateFirst hf (by exact hpf)
  all_goals
    first
    | (intro h; simp [applyFeedbackPatch, h])
    | (intro v h; simp [applyFeedbackPatch, h])

/-- C8 witness: a concrete patch providing only `strengths` overwrites that
field, keeps the rest and stamps `updated_at`; the empty patch only stamps
`updated_at`. -/
theorem C8_witness :
    ((update_feedback exStore exMgr exFbId { strengths := some "better" } 9).1).feedback.find?
        (fun g => decide (g.fid = exFbId)) =
      some (applyFeedbackPatch { strengths := some "better" } 9 exDocPos) := by
  exact (C8_update_partial_patch exStore exMgr exFbId exDocPos
    { strengths := some "better" } 9 (by rfl) (by rfl) (by rfl) (by rfl)).2.1

/-- The manager dashboard of `exStore` as the code computes it. -/
def exDash : ManagerDashboard :=
  { team_size := 2
    total_feedback_given := 1
    team_members :=
      [{ employee_id := "E1", full_name := "Eve Employee", feedback_count := 1
         latest_feedback_date := some 5, sentiment_distribution := { positive := 1 } },
       { employee_id := "E2", full_name := "Ed Employee", feedback_count := 0
         latest_feedback_date := none, sentiment_distribution := {} }]
    sentiment_trends := { positive := 1 }
    active_forms_count := 1
    form_submissions_count := 1 }

/-- The manager dashboard of `exStoreNull` as the code computes it. -/
def exDashNull : ManagerDashboard :=
  { team_size := 0, total_feedback_given := 1, team_members := []
    sentiment_trends := {}, active_forms_count := 0, form_submissions_count := 1 }

/-- C7: in every bucket, `sentiment_trends` equals the sum over the returned
team members of that member's `sentiment_distribution`. -/
theorem C7_sentiment_trends_sum (db : Store) (current_user : User)
    (hrole : current_user.role = Role.manager) :
    ∀ d, get_manager_dashboard db current_user = .ok d →
      d.sentiment_trends.positive =
        (d.team_members.map (fun m => m.sentiment_distribution.positive)).sum ∧
      d.sentiment_trends.neutral =
        (d.team_members.map (fun m => m.sentiment_distribution.neutral)).sum ∧
      d.sentiment_trends.negative =
        (d.team_members.map (fun m => m.sentiment_distribution.negative)).sum := by
  have key : ∀ (fb : List FeedbackDoc) (team : List User),
      (dashboardLoop fb team ({} : SentCounts)).2 =
        sumDists (dashboardLoop fb team {}).1 := by
    intro fb team
    rw [dashboardLoop_trends, zero_addC]
  intro d hd
  unfold get_manager_dashboard at hd
  rw [if_pos hrole] at hd
  injection hd with hd
  subst hd
  dsimp only
  rw [key]
  exact ⟨sumDists_positive _, sumDists_neutral _, sumDists_negative _⟩

/-- C7 witness: on a concrete store with two team members the trends counter
equals the member sums in every bucket. -/
theorem C7_witness :
    exDash.sentiment_trends.positive =
      (exDash.team_members.map (fun m => m.sentiment_distribution.positive)).sum ∧
    exDash.sentiment_trends.neutral =
      (exDash.team_members.map (fun m => m.sentiment_distribution.neutral)).sum ∧
    exDash.sentiment_trends.negative =
      (exDash.team_members.map (fun m => m.sentiment_distribution.negative)).sum := by
  exact C7_sentiment_trends_sum exStore exMgr (by rfl) exDash (by rfl)

/-- C2 counterexample: a feedback row created without any form — `form_id`
stored as null — is still counted by `form_submissions_count` (the Mongo
query uses `$exists`), although no row has a non-null `form_id`. -/
theorem C2_counterexample :
    (get_manager_dashboard exStoreNull exMgr).map (fun d => d.form_submissions_count) =
      .ok 1 ∧
    (exStoreNull.feedback.filter (fun f =>
      decide (f.manager_id = exMgr.employee_id) && formIdNonNull f)).length = 0 := by
  exact ⟨rfl, rfl⟩

/-- C2 (amended): `form_submissions_count` equals the number of feedback rows
owned by the caller whose `form_id` FIELD is present — the rows with a
non-null `form_id` plus the rows whose `form_id` is stored as null. Since
`create_feedback` always stores the field, every successful feedback create
(with or without a form) increments the counter by one. -/
theorem C2_form_submissions_count (db : Store) (current_user : User)
    (hrole : current_user.role = Role.manager) :
    (∀ d, get_manager_dashboard db current_user = .ok d →
      d.form_submissions_count =
        (db.feedback.filter (fun f =>
          decide (f.manager_id = current_user.employee_id) && formIdNonNull f)).length +
        (db.feedback.filter (fun f =>
          decide (f.manager_id = current_user.employee_id) &&
            decide (f.form_id = some none))).length) ∧
    (∀ payload now newId db2 r,
      create_feedback db current_user payload now newId = (db2, .ok r) →
      ∀ d1 d2, get_manager_dashboard db current_user = .ok d1 →
        get_manager_dashboard db2 current_user = .ok d2 →
        d2.form_submissions_count = d1.form_submissions_count + 1) := by
  have part1 : ∀ (db' : Store) d, get_manager_dashboard db' current_user = .ok d →
      d.form_submissions_count = (db'.feedback.filter (fun f =>
        decide (f.manager_id = current_user.employee_id) && f.form_id.isSome)).length := by
    intro db' d hd
    unfold get_manager_dashboard at hd
    rw [if_pos hrole] at hd
    injection hd with hd
    subst hd
    rfl
  constructor
  · intro d hd
    rw [part1 db d hd]
    exact count_formId_split _ _
  · intro payload now newId db2 r h d1 d2 hd1 hd2
    cases hfq : db.users.find? (fun u => decide (u.employee_id = payload.employee_id ∧
        u.manager_id = some current_user.employee_id ∧ u.role = Role.employee)) with
    | none =>
      exfalso
      unfold create_feedback at h
      rw [if_pos hrole, hfq] at h
      simp [Prod.ext_iff] at h
    | some emp =>
      have hc : create_feedback db current_user payload now newId =
          ({ db with feedback :=
              db.feedback ++ [createdFeedbackDoc current_user payload now newId] },
           .ok (responseOf (normalizeDoc (createdFeedbackDoc current_user payload now newId)))) := by
        unfold create_feedback
        rw [if_pos hrole, hfq]
        show ({ db with feedback :=
            db.feedback ++ [createdFeedbackDoc current_user payload now newId] },
          mkFeedbackResponse (normalizeDoc (createdFeedbackDoc current_user payload now newId))) = _
        rw [mkFeedbackResponse_normalizeDoc]
      rw [hc] at h
      have hdb2 : db2 = { db with feedback :=
          db.feedback ++ [createdFeedbackDoc current_user payload now newId] } :=
        (congrArg Prod.fst h).symm
      subst hdb2
      rw [part1 _ d2 hd2, part1 db d1 hd1]
      show ((db.feedback ++ [createdFeedbackDoc current_user payload now newId]).filter _).length = _
      rw [List.filter_append, List.length_append]
      simp [createdFeedbackDoc]

/-- C2 witness: on the concrete store the counter is the field-present count:
one null-valued row and zero non-null rows. -/
theorem C2_witness :
    exDashNull.form_submissions_count =
      (exStoreNull.feedback.filter (fun f =>
        decide (f.manager_id = exMgr.employee_id) && formIdNonNull f)).length +
      (exStoreNull.feedback.filter (fun f =>
        decide (f.manager_id = exMgr.employee_id) &&
          decide (f.form_id = some none))).length := by
  exact (C2_form_submissions_count exStoreNull exMgr (by rfl)).1 exDashNull (by rfl)

def exTok : AuthToken := { sub := exMgr.uid, exp := 10 }

def exMgrInactive : User := { exMgr with is_active := false }

def exStoreDeact : Store := { users := [exMgrInactive] }

/-- C10: token resolution looks the user up by id and never consults
`is_active`; every embedded handler is invariant under flipping the caller's
`is_active` flag; deactivation is enforced only by login. -/
theorem C10_auth_ignores_is_active (db : Store) (t : AuthToken) (now : Nat) (u : User)
    (hexp : now < t.exp)
    (hfind : db.users.find? (fun v => decide (v.uid = t.sub)) = some u) :
    get_current_user db t now = .ok u ∧
    (∀ b : Bool,
      get_current_user { db with users := setActiveUsers t.sub b db.users } t now =
        .ok { u with is_active := b }) ∧
    (∀ password, u.is_active = false → verify_password password u.password = true →
      db.users.find? (fun v => decide (v.email = u.email)) = some u →
      login_user db u.email password = .error (.unauthorized "Account is deactivated")) ∧
    (∀ (b : Bool) payload now2 newId,
      create_feedback db { u with is_active := b } payload now2 newId =
        create_feedback db u payload now2 newId) ∧
    (∀ (b : Bool) fid, get_feedback_by_id db { u with is_active := b } fid =
        get_feedback_by_id db u fid) ∧
    (∀ (b : Bool) fid now2, acknowledge_feedback db { u with is_active := b } fid now2 =
        acknowledge_feedback db u fid now2) ∧
    (∀ b : Bool, get_manager_dashboard db { u with is_active := b } =
        get_manager_dashboard db u) ∧
    (∀ (b : Bool) fid, get_feedback_form db { u with is_active := b } fid =
        get_feedback_form db u fid) ∧
    (∀ (b : Bool) fid, get_form_submissions db { u with is_active := b } fid =
        get_form_submissions db u fid) ∧
    (∀ (b : Bool) eid, get_feedback db { u with is_active := b } eid =
        get_feedback db u eid) := by
  refine ⟨?_, ?_, ?_, fun b payload now2 newId => rfl, fun b fid => rfl,
    fun b fid now2 => rfl, fun b => rfl, fun b fid => rfl, fun b fid => rfl,
    fun b eid => rfl⟩
  · unfold get_current_user verifyTokenSub
    rw [if_pos hexp]
    show (match db.users.find? (fun v => decide (v.uid = t.sub)) with
      | none => _
      | some user => _) = _
    rw [hfind]
  · intro b
    unfold get_current_user verifyTokenSub
    rw [if_pos hexp]
    show (match (setActiveUsers t.sub b db.users).find?
        (fun v => decide (v.uid = t.sub)) with
      | none => _
      | some user => _) = _
    rw [find?_setActiveUsers b hfind]
  · intro password hina hvp hfe
    unfold login_user
    rw [hfe]
    show (if ¬ verify_password password u.password then _
      else if ¬ u.is_active then _ else _) = _
    rw [if_neg (by simp [hvp]), if_pos (by simp [hina])]

/-- C10 witness: a deactivated manager still resolves through the token path,
while a fresh login with the correct password is rejected. -/
theorem C10_witness :
    get_current_user exStoreDeact exTok 3 = .ok exMgrInactive ∧
    login_user exStoreDeact exMgrInactive.email "pw1" =
      .error (.unauthorized "Account is deactivated") := by
  constructor
  · exact (C10_auth_ignores_is_active exStoreDeact exTok 3 exMgrInactive
      (by decide) (by rfl)).1
  · exact (C10_auth_ignores_is_active exStoreDeact exTok 3 exMgrInactive
      (by decide) (by rfl)).2.2.1 "pw1" (by rfl) (by rfl) (by rfl)

theorem buildResponses_raw_mem {fb : List FeedbackDoc} {p : FeedbackDoc → Bool}
    {l : List FeedbackResponse}
    (h : buildResponses (sortByCreatedDesc (fb.filter p)) = .ok l) :
    ∀ r ∈ l, ∃ d ∈ fb, r = responseOf d ∧ r.overall_sentiment = d.overall_sentiment ∧
      parseSentimentOk d.overall_sentiment = true := by
  intro r hr
  obtain ⟨d, hd, hmk⟩ := buildResponses_ok_mem h r hr
  obtain ⟨hre, hps⟩ := mkFeedbackResponse_ok_inv hmk
  exact ⟨d, List.mem_of_mem_filter (mem_sortByCreatedDesc.mp hd), hre,
    by rw [hre]; rfl, hps⟩

/-- C1 counterexample: the stored row carries the legacy value "POS"; the
single-feedback read returns it normalized to "positive", but the
form-submission retrieval path performs no normalization and fails response
validation instead of returning a canonical sentiment. -/
theorem C1_counterexample :
    get_form_submissions exStore exMgr exFormId =
      .error (.validation "overall_sentiment") ∧
    (get_feedback_by_id exStore exMgr exFbId).map (fun r => r.overall_sentiment) =
      .ok "positive" ∧
    exDocPos.overall_sentiment = "POS" := by
  exact ⟨rfl, rfl, rfl⟩

/-- C1 (amended): the case-insensitive pos/neg/other mapping is applied on
the feedback list, single-feedback and dashboard paths, so those paths only
return canonical sentiments; the form-submission retrieval path does NOT
normalize — it serializes the stored value unchanged and only succeeds when
that raw value is already canonical. -/
theorem C1_read_path_normalization (db : Store) (current_user : User) :
    (∀ s, normalize_sentiment s = "positive" ∨ normalize_sentiment s = "neutral" ∨
      normalize_sentiment s = "negative") ∧
    (∀ q l, get_feedback db current_user q = .ok l →
      ∀ r ∈ l, ∃ d ∈ db.feedback, r = responseOf (normalizeDoc d)) ∧
    (∀ fid r, get_feedback_by_id db current_user fid = .ok r →
      ∃ d ∈ db.feedback, r = responseOf (normalizeDoc d)) ∧
    (∀ fid r, get_feedback_by_id db current_user fid = .ok r →
      parseSentimentOk r.overall_sentiment = true) ∧
    (∀ d, get_manager_dashboard db current_user = .ok d →
      d.team_members = (db.users.filter (fun v =>
        decide (v.manager_id = some current_user.employee_id ∧ v.role = Role.employee ∧
          v.is_active = true))).map (statsFor (db.feedback.filter (fun f =>
            decide (f.manager_id = current_user.employee_id))))) ∧
    (∀ fid l, get_form_submissions db current_user fid = .ok l →
      ∀ r ∈ l, ∃ d ∈ db.feedback, r = responseOf d ∧
        r.overall_sentiment = d.overall_sentiment ∧
        parseSentimentOk d.overall_sentiment = true) := by
  have p3 : ∀ fid r, get_feedback_by_id db current_user fid = .ok r →
      ∃ d ∈ db.feedback, r = responseOf (normalizeDoc d) := by
    intro fid r h
    by_cases hv : objectIdValid fid = true
    · cases hfq : db.feedback.find? (fun g => decide (g.fid = fid)) with
      | none =>
        exfalso
        unfold get_feedback_by_id at h
        rw [if_neg (by simp [hv]), hfq] at h
        cases h
      | some f =>
        rw [get_feedback_by_id_found db current_user hv hfq] at h
        refine ⟨f, List.mem_of_find?_eq_some hfq, ?_⟩
        by_cases hr : current_user.role = Role.manager
        · rw [if_pos hr] at h
          by_cases hne : f.manager_id ≠ current_user.employee_id
          · rw [if_pos hne] at h; cases h
          · rw [if_neg hne, mkFeedbackResponse_normalizeDoc] at h
            injection h with h
            exact h.symm
        · rw [if_neg hr] at h
          by_cases hne : f.employee_id ≠ current_user.employee_id
          · rw [if_pos hne] at h; cases h
          · rw [if_neg hne, mkFeedbackResponse_normalizeDoc] at h
            injection h with h
            exact h.symm
    · exfalso
      unfold get_feedback_by_id at h
      rw [if_pos (by simpa using hv)] at h
      cases h
  refine ⟨normalize_sentiment_cases, ?_, p3, ?_, ?_, ?_⟩
  · intro q l hl
    unfold get_feedback at hl
    by_cases hr : current_user.role = Role.manager
    · rw [if_pos hr] at hl
      cases hq : (match q with
          | some e => if e = "" then none else some e
          | none => none) with
      | none =>
        rw [hq] at hl
        exact buildResponses_normalized_mem hl
      | some eid =>
        rw [hq] at hl
        replace hl : (match db.users.find? (fun v => decide (v.employee_id = eid ∧
            v.manager_id = some current_user.employee_id)) with
          | none => (Except.error (ApiError.notFound "Employee not found in your team") :
              Except ApiError (List FeedbackResponse))
          | some _ => buildResponses ((sortByCreatedDesc (db.feedback.filter (fun f =>
              decide (f.manager_id = current_user.employee_id ∧
                f.employee_id = eid)))).map normalizeDoc)) = .ok l := hl
        cases hfq : db.users.find? (fun v => decide (v.employee_id = eid ∧
            v.manager_id = some current_user.employee_id)) with
        | none => rw [hfq] at hl; cases hl
        | some emp =>
          rw [hfq] at hl
          exact buildResponses_normalized_mem hl
    · rw [if_neg hr] at hl
      exact buildResponses_normalized_mem hl
  · intro fid r h
    obtain ⟨d, hd, hre⟩ := p3 fid r h
    rw [hre]
    exact parseSentimentOk_normalize _
  · intro d hd
    by_cases hr : current_user.role = Role.manager
    · unfold get_manager_dashboard at hd
      rw [if_pos hr] at hd
      injection hd with hd
      subst hd
      exact dashboardLoop_members _ _ _
    · exfalso
      unfold get_manager_dashboard at hd
      rw [if_neg hr] at hd
      cases hd
  · intro fid l hl
    unfold get_form_submissions at hl
    by_cases hr : current_user.role = Role.manager
    · rw [if_pos hr] at hl
      by_cases hv : objectIdValid fid = true
      · rw [if_neg (by simp [hv])] at hl
        cases hfq : db.forms.find? (fun f => decide (f.oid = fid)) with
        | none => rw [hfq] at hl; cases hl
        | some form =>
          rw [hfq] at hl
          replace hl : (if form.manager_id ≠ current_user.employee_id then
              (Except.error (ApiError.forbidden
                "You can only view submissions for forms you have created") :
                Except ApiError (List FeedbackResponse))
            else buildResponses (sortByCreatedDesc (db.feedback.filter (fun f =>
              decide (f.form_id = some (some fid)))))) = .ok l := hl
          by_cases hne : form.manager_id ≠ current_user.employee_id
          · rw [if_pos hne] at hl; cases hl
          · rw [if_neg hne] at hl
            exact buildResponses_raw_mem hl
      · rw [if_pos (by simpa using hv)] at hl
        cases hl
    · rw [if_neg hr] at hl
      cases hl

/-- C1 witness: the single-feedback read of a row stored as "POS" returns a
canonical sentiment. -/
theorem C1_witness : parseSentimentOk exRespPos.overall_sentiment = true := by
  exact (C1_read_path_normalization exStore exMgr).2.2.2.1 exFbId exRespPos (by rfl)

end FeedbackServer
